import Mathlib

/-
Verification of the Brush training-status monitor
(examples/status_monitoring.py) against its specification.

Modelling conventions:
  - Python values read from the JSON status artifact are modelled by the
    inductive type PyVal.  JSON/Python floats are modelled as exact
    rationals; every numeric literal appearing in the claims has an exact
    decimal representation, where Python float formatting and exact
    rational formatting agree.
  - Fallible Python expressions are modelled as Except PyErr computations.
    The exception classes relevant to the monitor are listed in PyErr.
  - One iteration of the poll loop (the body of the while True block) is
    modelled by pollOnce.  The result records the lines printed, the new
    value of the last_iteration variable, whether the break statement ran
    (terminated), and an exception escaping the loop body uncaught, if any.
  - The wall-clock timestamp rendered at the front of a status line is
    passed in as the parameter named clock.
-/

attribute [local semireducible] Rat.mul Rat.add Rat.sub Rat.inv Rat.ofScientific

/-- A Python value as produced by json.load, plus None.  Floats are
modelled as exact rationals. -/
inductive PyVal where
  | null
  | bool (b : Bool)
  | int (n : ℤ)
  | float (q : ℚ)
  | str (s : String)
  | list (xs : List PyVal)
  | dict (fields : List (String × PyVal))

/-- The Python exception classes the monitor can encounter.  The first
three are caught by the except clauses of the poll loop; the others
escape it. -/
inductive PyErr where
  | keyError (k : String)
  | jsonDecodeError
  | fileNotFoundError
  | typeError
  | valueError
  | attributeError
deriving DecidableEq

/-- Numeric view of a Python value: bool, int and float all participate in
numeric comparison and arithmetic (bool is an int subclass in Python). -/
def asRat : PyVal → Option ℚ
  | .bool b => some (if b then 1 else 0)
  | .int n => some (n : ℚ)
  | .float q => some q
  | _ => Option.none

mutual

/-- Structural equality on non-numeric Python values (numeric
cross-type equality is layered on top in pyEq).  Dict equality is
modelled on the association-list order; json.load produces each key at
most once, and no claim compares composite values. -/
def pyStructEq : PyVal → PyVal → Bool
  | .null, .null => true
  | .bool a, .bool b => a == b
  | .int a, .int b => a == b
  | .float a, .float b => a == b
  | .str a, .str b => a == b
  | .list xs, .list ys => pyStructEqL xs ys
  | .dict xs, .dict ys => pyStructEqD xs ys
  | _, _ => false

def pyStructEqL : List PyVal → List PyVal → Bool
  | [], [] => true
  | x :: xs, y :: ys => pyStructEq x y && pyStructEqL xs ys
  | _, _ => false

def pyStructEqD : List (String × PyVal) → List (String × PyVal) → Bool
  | [], [] => true
  | (k, x) :: xs, (j, y) :: ys => k == j && pyStructEq x y && pyStructEqD xs ys
  | _, _ => false

end

/-- Python == on the values at hand: numeric values compare by value
across bool/int/float; otherwise structural. -/
def pyEq (a b : PyVal) : Bool :=
  match asRat a, asRat b with
  | some x, some y => x == y
  | _, _ => pyStructEq a b

/-- Python != (default negation of ==). -/
def pyNe (a b : PyVal) : Bool := !(pyEq a b)

/-- Python truthiness of the values at hand. -/
def truthy : PyVal → Bool
  | .null => false
  | .bool b => b
  | .int n => !(n == 0)
  | .float q => !(q == 0)
  | .str s => !(s == "")
  | .list xs => !(xs.isEmpty)
  | .dict fs => !(fs.isEmpty)

/-- Python: value is not None. -/
def isNotNone : PyVal → Bool
  | .null => false
  | _ => true

/-- First binding of a key in an association list (Python dict lookup;
json.load yields each key once). -/
def findField : List (String × PyVal) → String → Option PyVal
  | [], _ => Option.none
  | (k, v) :: rest, key => if k = key then some v else findField rest key

/-- Python subscript v[key] with a string key: dict lookup raising
KeyError when absent; TypeError on any non-dict value. -/
def pySubscript (v : PyVal) (key : String) : Except PyErr PyVal :=
  match v with
  | .dict fields =>
    match findField fields key with
    | some x => .ok x
    | Option.none => .error (.keyError key)
  | _ => .error .typeError

/-- Python dict.get(key): None when absent; AttributeError on a
non-dict receiver. -/
def pyDictGet (v : PyVal) (key : String) : Except PyErr PyVal :=
  match v with
  | .dict fields =>
    match findField fields key with
    | some x => .ok x
    | Option.none => .ok .null
  | _ => .error .attributeError

/-- Remove every binding of a key from a parsed JSON object (used to
state the missing-required-key claims). -/
def removeField (key : String) : PyVal → PyVal
  | .dict fields => .dict (fields.filter (fun p => !(p.1 == key)))
  | v => v

/-- Round a rational to the nearest integer, ties to even (the rounding
Python float formatting applies to the value being formatted). -/
def roundHalfEven (q : ℚ) : ℤ :=
  let f : ℤ := ⌊q⌋
  let r : ℚ := q - (f : ℚ)
  if r < 1 / 2 then f
  else if 1 / 2 < r then f + 1
  else if f % 2 = 0 then f else f + 1

/-- Fixed-point formatting of an exact rational with the given number of
decimals: the model of the Python format specifications .1f, .2f, .3f
applied to a numeric value. -/
def formatFixed (prec : Nat) (q : ℚ) : String :=
  let scaled := roundHalfEven (q * (10 : ℚ) ^ prec)
  let sign := if q < 0 then "-" else ""
  let a := scaled.natAbs
  let ipart := a / 10 ^ prec
  let fpart := a % 10 ^ prec
  let fs := Nat.repr fpart
  let fs := String.mk (List.replicate (prec - fs.length) '0') ++ fs
  if prec = 0 then sign ++ Nat.repr ipart
  else sign ++ Nat.repr ipart ++ "." ++ fs

/-- Split a reversed digit list into groups of three (for thousands
separators). -/
def chunk3 : List Char → List (List Char)
  | [] => []
  | a :: b :: c :: rest => [a, b, c] :: chunk3 rest
  | xs => [xs]

/-- Insert thousands separators into a digit string. -/
def commaGroup (s : String) : String :=
  let parts := (chunk3 s.toList.reverse).map (fun l => String.mk l.reverse)
  String.intercalate "," parts.reverse

/-- The Python format specification with a comma option applied to an
integer. -/
def commaInt (n : ℤ) : String :=
  (if n < 0 then "-" else "") ++ commaGroup (Nat.repr n.natAbs)

/-- Exact decimal expansion of a rational: the scaled integer and the
number of decimal digits, when the expansion terminates within fuel. -/
def decExpand (fuel : Nat) (q : ℚ) : Option (ℤ × Nat) :=
  if q.den = 1 then some (q.num, 0)
  else
    match fuel with
    | 0 => Option.none
    | n + 1 => (decExpand n (q * 10)).map (fun p => (p.1, p.2 + 1))

/-- Model of Python str applied to a float.  Under the exact-rational
model of floats, the numbers at hand all have a terminating decimal
expansion, which is what Python prints for them. -/
def floatRepr (q : ℚ) : String :=
  match decExpand 1200 q with
  | some (m, 0) => toString m ++ ".0"
  | some (m, k) =>
    let sign := if m < 0 then "-" else ""
    let a := m.natAbs
    let ipart := a / 10 ^ k
    let fpart := a % 10 ^ k
    let fs := Nat.repr fpart
    let fs := String.mk (List.replicate (k - fs.length) '0') ++ fs
    sign ++ Nat.repr ipart ++ "." ++ fs
  | Option.none => toString q.num ++ "/" ++ toString q.den

mutual

/-- Model of Python repr for the values at hand (string escaping inside
container repr is not modelled; no claim prints containers). -/
def pyRepr : PyVal → String
  | .null => "None"
  | .bool b => if b then "True" else "False"
  | .int n => toString n
  | .float q => floatRepr q
  | .str s => "\x27" ++ s ++ "\x27"
  | .list xs => "[" ++ pyReprL xs ++ "]"
  | .dict fs => "\x7b" ++ pyReprD fs ++ "\x7d"

def pyReprL : List PyVal → String
  | [] => ""
  | [x] => pyRepr x
  | x :: rest => pyRepr x ++ ", " ++ pyReprL rest

def pyReprD : List (String × PyVal) → String
  | [] => ""
  | [(k, v)] => "\x27" ++ k ++ "\x27: " ++ pyRepr v
  | (k, v) :: rest => "\x27" ++ k ++ "\x27: " ++ pyRepr v ++ ", " ++ pyReprD rest

end

/-- Model of Python str for the values at hand (str and repr agree on
everything except strings themselves). -/
def pyStr : PyVal → String
  | .str s => s
  | v => pyRepr v

/-- format_duration from the source: format a duration in seconds to a
human readable form. -/
def format_duration (seconds : ℚ) : String :=
  if seconds < 60 then formatFixed 1 seconds ++ "s"
  else if seconds < 3600 then formatFixed 1 (seconds / 60) ++ "m"
  else formatFixed 1 (seconds / 3600) ++ "h"

/-- format_duration applied to a raw Python value: the comparison
seconds < 60 raises TypeError on non-numeric input. -/
def pyFormatDuration (v : PyVal) : Except PyErr String :=
  match asRat v with
  | some q => .ok (format_duration q)
  | Option.none => .error .typeError

/-- A Python format specification .Nf applied to a raw value: ValueError
on a string, TypeError on None and containers. -/
def pyFormatFixed (prec : Nat) (v : PyVal) : Except PyErr String :=
  match v with
  | .bool b => .ok (formatFixed prec (if b then 1 else 0))
  | .int n => .ok (formatFixed prec (n : ℚ))
  | .float q => .ok (formatFixed prec q)
  | .str _ => .error .valueError
  | _ => .error .typeError

/-- A float under the Python comma format specification: thousands
separators on the integer part, then the decimal expansion. -/
def commaFloat (q : ℚ) : String :=
  match decExpand 1200 q with
  | some (m, 0) =>
    (if m < 0 then "-" else "") ++ commaGroup (Nat.repr m.natAbs) ++ ".0"
  | some (m, k) =>
    let sign := if m < 0 then "-" else ""
    let a := m.natAbs
    let ipart := a / 10 ^ k
    let fpart := a % 10 ^ k
    let fs := Nat.repr fpart
    let fs := String.mk (List.replicate (k - fs.length) '0') ++ fs
    sign ++ commaGroup (Nat.repr ipart) ++ "." ++ fs
  | Option.none => toString q.num ++ "/" ++ toString q.den

/-- A Python comma format specification applied to a raw value:
ValueError on a string, TypeError on None and containers. -/
def pyFormatComma (v : PyVal) : Except PyErr String :=
  match v with
  | .bool b => .ok (if b then "1" else "0")
  | .int n => .ok (commaInt n)
  | .float q => .ok (commaFloat q)
  | .str _ => .error .valueError
  | _ => .error .typeError

/-- What the monitor finds at the status path on one poll: the file does
not exist; it exists but vanishes before the read (FileNotFoundError);
its content fails to parse as JSON (json.JSONDecodeError); or it parses
to a Python value. -/
inductive Artifact where
  | absent
  | vanished
  | malformed
  | parsed (v : PyVal)

/-- Outcome of one iteration of the poll loop body: the lines printed in
order, the value of the last_iteration variable afterwards, whether the
break statement ran, and an exception escaping the loop uncaught. -/
structure PollResult where
  lines : List String
  last : PyVal
  terminated : Bool
  uncaught : Option PyErr

/-- The except clauses of the poll loop (source lines 107 to 112):
JSONDecodeError, FileNotFoundError and KeyError each print one notice
and let the loop continue; any other exception escapes.  Lines printed
before the exception was raised are kept, as is the current value of
last_iteration. -/
def handleExc (e : PyErr) (lines : List String) (last : PyVal) : PollResult :=
  match e with
  | .jsonDecodeError => ⟨lines ++ ["Status file corrupted, retrying..."], last, false, Option.none⟩
  | .fileNotFoundError => ⟨lines ++ ["Status file disappeared, waiting..."], last, false, Option.none⟩
  | .keyError k => ⟨lines ++ ["Missing key in status file: \x27" ++ k ++ "\x27"], last, false, Option.none⟩
  | e => ⟨lines, last, false, some e⟩

/-- Source lines 67 to 93: read the remaining fields and build the status
line, in the evaluation order of the Python source (assignments 67 to 71,
then the f-string 74 to 82, then the two optional segments).  Returns the
line and the value bound to train_status. -/
def buildStatusLine (clock : String) (v : PyVal) (current_iter : PyVal) :
    Except PyErr (String × PyVal) :=
  match pySubscript v "progress_percentage" with
  | .error e => .error e
  | .ok progress =>
  match pySubscript v "elapsed_time_seconds" with
  | .error e => .error e
  | .ok elapsedV =>
  match pyFormatDuration elapsedV with
  | .error e => .error e
  | .ok elapsed =>
  match pySubscript v "estimated_remaining_seconds" with
  | .error e => .error e
  | .ok remainingV =>
  match pyFormatDuration remainingV with
  | .error e => .error e
  | .ok remaining =>
  match pySubscript v "current_splat_count" with
  | .error e => .error e
  | .ok splat_count =>
  match pySubscript v "status" with
  | .error e => .error e
  | .ok train_status =>
  match pySubscript v "total_iterations" with
  | .error e => .error e
  | .ok tot =>
  match pyFormatFixed 1 progress with
  | .error e => .error e
  | .ok progressStr =>
  match pyFormatComma splat_count with
  | .error e => .error e
  | .ok splatStr =>
  let status_line := "[" ++ clock ++ "] " ++
    ("Iter " ++ pyStr current_iter ++ "/" ++ pyStr tot ++
     " (" ++ progressStr ++ "%) | " ++
     "Elapsed: " ++ elapsed ++ " | " ++
     "Remaining: " ++ remaining ++ " | " ++
     "Splats: " ++ splatStr ++ " | " ++
     "Status: " ++ pyStr train_status)
  match pyDictGet v "last_eval_psnr" with
  | .error e => .error e
  | .ok psnrOpt =>
  match
    (if isNotNone psnrOpt then
      match pySubscript v "last_eval_psnr" with
      | .error e => (.error e : Except PyErr String)
      | .ok psnr =>
      match pySubscript v "last_eval_ssim" with
      | .error e => .error e
      | .ok ssim =>
      match pyFormatFixed 2 psnr with
      | .error e => .error e
      | .ok psnrStr =>
      match pyFormatFixed 3 ssim with
      | .error e => .error e
      | .ok ssimStr =>
        .ok (status_line ++ (" | PSNR: " ++ psnrStr ++ " | SSIM: " ++ ssimStr))
    else .ok status_line) with
  | .error e => .error e
  | .ok withMetrics =>
  match pyDictGet v "current_export_file" with
  | .error e => .error e
  | .ok exportOpt =>
  let line :=
    if truthy exportOpt then withMetrics ++ (" | Last export: " ++ pyStr exportOpt)
    else withMetrics
  .ok (line, train_status)

/-- Source lines 95 to 105: print the status line, then inspect
train_status; on completed print the completion notice and possibly the
final-output line, then break; on error print the failure notice and
break.  The current_iter argument is the already-updated value of
last_iteration. -/
def pollAfterLine (v : PyVal) (current_iter : PyVal) (status_line : String)
    (train_status : PyVal) : PollResult :=
  if pyEq train_status (.str "completed") then
    match pyDictGet v "current_export_file" with
    | .error e => handleExc e [status_line, "\n✅ Training completed!"] current_iter
    | .ok e =>
      if truthy e then
        match pySubscript v "export_path" with
        | .error er => handleExc er [status_line, "\n✅ Training completed!"] current_iter
        | .ok ep =>
          match pySubscript v "current_export_file" with
          | .error er => handleExc er [status_line, "\n✅ Training completed!"] current_iter
          | .ok ef =>
            ⟨[status_line, "\n✅ Training completed!",
              "Final output: " ++ pyStr ep ++ "/" ++ pyStr ef],
             current_iter, true, Option.none⟩
      else ⟨[status_line, "\n✅ Training completed!"], current_iter, true, Option.none⟩
  else if pyEq train_status (.str "error") then
    ⟨[status_line, "\n❌ Training failed!"], current_iter, true, Option.none⟩
  else ⟨[status_line], current_iter, false, Option.none⟩

/-- Source lines 62 to 105 on a successfully parsed document: read
current_iteration, compare with last_iteration, and if it changed update
last_iteration (line 64, before any further read) and render. -/
def pollParsed (clock : String) (v : PyVal) (last : PyVal) : PollResult :=
  match pySubscript v "current_iteration" with
  | .error e => handleExc e [] last
  | .ok current_iter =>
    if pyNe current_iter last then
      match buildStatusLine clock v current_iter with
      | .error e => handleExc e [] current_iter
      | .ok (status_line, train_status) =>
        pollAfterLine v current_iter status_line train_status
    else ⟨[], last, false, Option.none⟩

/-- One iteration of the poll loop body (source lines 52 to 112), up to
but not including the sleep. -/
def pollOnce (clock : String) (art : Artifact) (last : PyVal) : PollResult :=
  match art with
  | .absent =>
    ⟨["Status file not found, waiting for training to start..."], last, false, Option.none⟩
  | .vanished => handleExc .fileNotFoundError [] last
  | .malformed => handleExc .jsonDecodeError [] last
  | .parsed v => pollParsed clock v last

/-- time.sleep: raises ValueError on a negative duration, otherwise
returns. -/
def pySleep (interval : ℚ) : Except PyErr Unit :=
  if interval < 0 then .error .valueError else .ok ()

/-- One full trip around the while loop: the body, then (unless the body
broke out of the loop or an exception is already escaping) the sleep,
whose ValueError on a negative interval also escapes uncaught.  The
sleep in the file-absent branch (line 55) and the common sleep (line
114) behave identically, so they share this model. -/
def loopStep (clock : String) (interval : ℚ) (art : Artifact) (last : PyVal) : PollResult :=
  let r := pollOnce clock art last
  if r.terminated then r
  else
    match r.uncaught with
    | some _ => r
    | Option.none =>
      match pySleep interval with
      | .ok _ => r
      | .error e => ⟨r.lines, r.last, false, some e⟩

/-- Source lines 44 to 48: monitor_training_progress initialises
last_iteration to -1 and prints two header lines before entering the
loop; the update_interval argument is not validated anywhere. -/
def monitorInit (status_file_path : String) : List String × PyVal :=
  (["Monitoring training progress from: " ++ status_file_path,
    "Press Ctrl+C to stop monitoring\n"], .int (-1))

/-- An optional JSON field: missing from the object, present with value
null, or present with a value. -/
inductive OptF (α : Type) where
  | absent
  | null
  | val (a : α)

/-- The key/value bindings an optional field contributes to the JSON
object. -/
def OptF.entries {α : Type} (k : String) (f : α → PyVal) : OptF α → List (String × PyVal)
  | .absent => []
  | .null => [(k, PyVal.null)]
  | .val a => [(k, f a)]

/-- A well-typed status snapshot as the producer writes it (spec section
3): the required fields with their documented types, plus the optional
evaluation-metric and export fields. -/
structure Snapshot where
  current_iteration : ℤ
  total_iterations : ℤ
  progress_percentage : ℚ
  elapsed_time_seconds : ℚ
  estimated_remaining_seconds : ℚ
  current_splat_count : ℤ
  status : String
  last_updated : String
  last_eval_psnr : OptF ℚ
  last_eval_ssim : OptF ℚ
  current_export_file : OptF String
  export_path : OptF String

/-- The JSON object a snapshot serialises to. -/
def Snapshot.toPyVal (s : Snapshot) : PyVal :=
  .dict ([("current_iteration", .int s.current_iteration),
          ("total_iterations", .int s.total_iterations),
          ("progress_percentage", .float s.progress_percentage),
          ("elapsed_time_seconds", .float s.elapsed_time_seconds),
          ("estimated_remaining_seconds", .float s.estimated_remaining_seconds),
          ("current_splat_count", .int s.current_splat_count),
          ("status", .str s.status),
          ("last_updated", .str s.last_updated)]
    ++ OptF.entries "last_eval_psnr" PyVal.float s.last_eval_psnr
    ++ OptF.entries "last_eval_ssim" PyVal.float s.last_eval_ssim
    ++ OptF.entries "current_export_file" PyVal.str s.current_export_file
    ++ OptF.entries "export_path" PyVal.str s.export_path)

/-- The seven keys the monitor reads with a raising subscript. -/
def requiredKeys : List String :=
  ["current_iteration", "progress_percentage", "elapsed_time_seconds",
   "estimated_remaining_seconds", "current_splat_count", "status",
   "total_iterations"]

/-- The notice the KeyError handler prints for a missing key. -/
def missingNotice (k : String) : String :=
  "Missing key in status file: \x27" ++ k ++ "\x27"

/-- The metrics block of the renderer does not raise on this snapshot:
either last_eval_psnr is absent or null (the block is skipped), or both
metrics carry numeric values. -/
def MetricsOK (s : Snapshot) : Prop :=
  match s.last_eval_psnr, s.last_eval_ssim with
  | .val _, .val _ => True
  | .val _, _ => False
  | _, _ => True

/-- The status line the monitor renders for a snapshot whose metrics
block does not raise, written with the same string assembly as
buildStatusLine. -/
def renderLine (clock : String) (s : Snapshot) : String :=
  let base := "[" ++ clock ++ "] " ++
    ("Iter " ++ toString s.current_iteration ++ "/" ++ toString s.total_iterations ++
     " (" ++ formatFixed 1 s.progress_percentage ++ "%) | " ++
     "Elapsed: " ++ format_duration s.elapsed_time_seconds ++ " | " ++
     "Remaining: " ++ format_duration s.estimated_remaining_seconds ++ " | " ++
     "Splats: " ++ commaInt s.current_splat_count ++ " | " ++
     "Status: " ++ s.status)
  let withMetrics :=
    match s.last_eval_psnr, s.last_eval_ssim with
    | .val p, .val q =>
      base ++ (" | PSNR: " ++ formatFixed 2 p ++ " | SSIM: " ++ formatFixed 3 q)
    | _, _ => base
  match s.current_export_file with
  | .val f => if truthy (.str f) then withMetrics ++ (" | Last export: " ++ f) else withMetrics
  | _ => withMetrics

example : format_duration (599 / 10) = "59.9s" := by decide
example : format_duration 60 = "1.0m" := by decide
example : format_duration 3600 = "1.0h" := by decide
example : format_duration (1089 / 2) = "9.1m" := by decide
example : format_duration 60.5 = "1.0m" := by decide
example : commaInt 5000 = "5,000" := by decide
example : formatFixed 1 10 = "10.0" := by decide

theorem pyEq_int (a b : ℤ) : pyEq (.int a) (.int b) = decide (a = b) := by
  simp only [pyEq, asRat]
  by_cases h : a = b
  · subst h; simp
  · simp [beq_iff_eq, Int.cast_inj, h]

theorem pyNe_int_of_ne {a b : ℤ} (h : a ≠ b) : pyNe (.int a) (.int b) = true := by
  simp [pyNe, pyEq_int, h]

theorem pyNe_int_self (a : ℤ) : pyNe (.int a) (.int a) = false := by
  simp [pyNe, pyEq_int]

theorem pyEq_str (a b : String) : pyEq (.str a) (.str b) = (a == b) := rfl

theorem pySubscript_ci (s : Snapshot) :
    pySubscript s.toPyVal "current_iteration" = .ok (.int s.current_iteration) := rfl

theorem pollParsed_changed (clock : String) (v : PyVal) (c l : ℤ)
    (h : pySubscript v "current_iteration" = .ok (.int c)) (hne : c ≠ l) :
    pollParsed clock v (.int l) =
      match buildStatusLine clock v (.int c) with
      | .error e => handleExc e [] (.int c)
      | .ok (sl, ts) => pollAfterLine v (.int c) sl ts := by
  unfold pollParsed
  rw [h]
  dsimp only
  simp only [pyNe_int_of_ne hne, if_true]

theorem pollParsed_same (clock : String) (v : PyVal) (l : ℤ)
    (h : pySubscript v "current_iteration" = .ok (.int l)) :
    pollParsed clock v (.int l) = ⟨[], .int l, false, Option.none⟩ := by
  unfold pollParsed
  rw [h]
  dsimp only
  simp only [pyNe_int_self, Bool.false_eq_true, if_false]

theorem buildStatusLine_toPyVal (clock : String) (s : Snapshot) (hm : MetricsOK s) :
    buildStatusLine clock s.toPyVal (.int s.current_iteration) =
      .ok (renderLine clock s, .str s.status) := by
  rcases s with ⟨c, t, pr, el, re, sp, st, lu, psnr, ssim, cef, ep⟩
  cases psnr <;> cases ssim <;> cases cef <;> cases ep <;>
    first
      | rfl
      | exact hm.elim

/-- The Python value dict.get returns for an optional string field:
None when the key is absent or bound to null. -/
def strOptVal : OptF String → PyVal
  | .absent => PyVal.null
  | .null => PyVal.null
  | .val f => .str f

theorem pyDictGet_cef (s : Snapshot) :
    pyDictGet s.toPyVal "current_export_file" = .ok (strOptVal s.current_export_file) := by
  rcases s with ⟨c, t, pr, el, re, sp, st, lu, psnr, ssim, cef, ep⟩
  cases psnr <;> cases ssim <;> cases cef <;> cases ep <;> rfl

theorem pySubscript_ep (s : Snapshot) :
    pySubscript s.toPyVal "export_path" =
      (match s.export_path with
       | .absent => .error (.keyError "export_path")
       | .null => .ok PyVal.null
       | .val p => .ok (.str p)) := by
  rcases s with ⟨c, t, pr, el, re, sp, st, lu, psnr, ssim, cef, ep⟩
  cases psnr <;> cases ssim <;> cases cef <;> cases ep <;> rfl

theorem pySubscript_cef (s : Snapshot) :
    pySubscript s.toPyVal "current_export_file" =
      (match s.current_export_file with
       | .absent => .error (.keyError "current_export_file")
       | .null => .ok PyVal.null
       | .val f => .ok (.str f)) := by
  rcases s with ⟨c, t, pr, el, re, sp, st, lu, psnr, ssim, cef, ep⟩
  cases psnr <;> cases ssim <;> cases cef <;> cases ep <;> rfl

/-- The poll outcome after a successfully rendered line, as a function of
the snapshot (what the monitor does from the print at line 95 onwards). -/
def afterRender (clock : String) (s : Snapshot) : PollResult :=
  pollAfterLine s.toPyVal (.int s.current_iteration) (renderLine clock s) (.str s.status)

theorem pollOnce_changed (clock : String) (s : Snapshot) (l : ℤ)
    (hne : s.current_iteration ≠ l) (hm : MetricsOK s) :
    pollOnce clock (.parsed s.toPyVal) (.int l) = afterRender clock s := by
  show pollParsed clock s.toPyVal (.int l) = _
  rw [pollParsed_changed clock s.toPyVal s.current_iteration l (pySubscript_ci s) hne,
    buildStatusLine_toPyVal clock s hm]
  rfl

theorem pollOnce_same (clock : String) (s : Snapshot) (l : ℤ)
    (h : s.current_iteration = l) :
    pollOnce clock (.parsed s.toPyVal) (.int l) = ⟨[], .int l, false, Option.none⟩ := by
  show pollParsed clock s.toPyVal (.int l) = _
  exact pollParsed_same clock s.toPyVal l (h ▸ pySubscript_ci s)

theorem afterRender_nonterminal (clock : String) (s : Snapshot)
    (h1 : s.status ≠ "completed") (h2 : s.status ≠ "error") :
    afterRender clock s =
      ⟨[renderLine clock s], .int s.current_iteration, false, Option.none⟩ := by
  unfold afterRender pollAfterLine
  simp only [pyEq_str, beq_eq_false_iff_ne.mpr h1, beq_eq_false_iff_ne.mpr h2,
    Bool.false_eq_true, if_false]

theorem afterRender_error (clock : String) (s : Snapshot) (h : s.status = "error") :
    afterRender clock s =
      ⟨[renderLine clock s, "\n❌ Training failed!"], .int s.current_iteration, true,
        Option.none⟩ := by
  unfold afterRender pollAfterLine
  rw [h]
  rfl

theorem afterRender_completed_no_export (clock : String) (s : Snapshot)
    (hst : s.status = "completed")
    (hcef : truthy (strOptVal s.current_export_file) = false) :
    afterRender clock s =
      ⟨[renderLine clock s, "\n✅ Training completed!"], .int s.current_iteration, true,
        Option.none⟩ := by
  unfold afterRender pollAfterLine
  rw [hst, pyDictGet_cef]
  dsimp only
  rw [hcef]
  rfl

theorem afterRender_completed_export (clock : String) (s : Snapshot) (f p : String)
    (hst : s.status = "completed") (hcef : s.current_export_file = .val f)
    (hf : f ≠ "") (hep : s.export_path = .val p) :
    afterRender clock s =
      ⟨[renderLine clock s, "\n✅ Training completed!", "Final output: " ++ p ++ "/" ++ f],
        .int s.current_iteration, true, Option.none⟩ := by
  unfold afterRender pollAfterLine
  rw [hst, pyDictGet_cef, hcef]
  dsimp only [strOptVal]
  rw [show truthy (.str f) = true from by simp [truthy, beq_eq_false_iff_ne.mpr hf],
    pySubscript_ep, hep, pySubscript_cef, hcef]
  rfl

theorem afterRender_completed_export_no_path (clock : String) (s : Snapshot) (f : String)
    (hst : s.status = "completed") (hcef : s.current_export_file = .val f)
    (hf : f ≠ "") (hep : s.export_path = .absent) :
    afterRender clock s =
      ⟨[renderLine clock s, "\n✅ Training completed!", missingNotice "export_path"],
        .int s.current_iteration, false, Option.none⟩ := by
  unfold afterRender pollAfterLine
  rw [hst, pyDictGet_cef, hcef]
  dsimp only [strOptVal]
  rw [show truthy (.str f) = true from by simp [truthy, beq_eq_false_iff_ne.mpr hf],
    pySubscript_ep, hep]
  rfl

theorem afterRender_completed_export_null_path (clock : String) (s : Snapshot) (f : String)
    (hst : s.status = "completed") (hcef : s.current_export_file = .val f)
    (hf : f ≠ "") (hep : s.export_path = .null) :
    afterRender clock s =
      ⟨[renderLine clock s, "\n✅ Training completed!", "Final output: None/" ++ f],
        .int s.current_iteration, true, Option.none⟩ := by
  unfold afterRender pollAfterLine
  rw [hst, pyDictGet_cef, hcef]
  dsimp only [strOptVal]
  rw [show truthy (.str f) = true from by simp [truthy, beq_eq_false_iff_ne.mpr hf],
    pySubscript_ep, hep, pySubscript_cef, hcef]
  rfl

theorem pollOnce_parsed_same (clock : String) (v : PyVal) (l : ℤ)
    (h : pySubscript v "current_iteration" = .ok (.int l)) :
    pollOnce clock (.parsed v) (.int l) = ⟨[], .int l, false, Option.none⟩ := by
  show pollParsed clock v (.int l) = _
  exact pollParsed_same clock v l h

theorem pollOnce_missing_general (clock : String) (v : PyVal) (c l : ℤ) (k : String)
    (hci : pySubscript v "current_iteration" = .ok (.int c))
    (hb : buildStatusLine clock v (.int c) = .error (.keyError k))
    (hne : c ≠ l) :
    pollOnce clock (.parsed v) (.int l) =
      ⟨[missingNotice k], .int c, false, Option.none⟩ := by
  show pollParsed clock v (.int l) = _
  rw [pollParsed_changed clock v c l hci hne, hb]
  rfl

theorem pollOnce_missing_ci (clock : String) (s : Snapshot) (l : ℤ) :
    pollOnce clock (.parsed (removeField "current_iteration" s.toPyVal)) (.int l) =
      ⟨[missingNotice "current_iteration"], .int l, false, Option.none⟩ := by
  rcases s with ⟨c, t, pr, el, re, sp, st, lu, psnr, ssim, cef, ep⟩
  cases psnr <;> cases ssim <;> cases cef <;> cases ep <;> rfl

theorem sub_ci_rm_pp (s : Snapshot) :
    pySubscript (removeField "progress_percentage" s.toPyVal) "current_iteration" =
      .ok (.int s.current_iteration) := rfl

theorem sub_ci_rm_el (s : Snapshot) :
    pySubscript (removeField "elapsed_time_seconds" s.toPyVal) "current_iteration" =
      .ok (.int s.current_iteration) := rfl

theorem sub_ci_rm_re (s : Snapshot) :
    pySubscript (removeField "estimated_remaining_seconds" s.toPyVal) "current_iteration" =
      .ok (.int s.current_iteration) := rfl

theorem sub_ci_rm_sp (s : Snapshot) :
    pySubscript (removeField "current_splat_count" s.toPyVal) "current_iteration" =
      .ok (.int s.current_iteration) := rfl

theorem sub_ci_rm_st (s : Snapshot) :
    pySubscript (removeField "status" s.toPyVal) "current_iteration" =
      .ok (.int s.current_iteration) := rfl

theorem sub_ci_rm_ti (s : Snapshot) :
    pySubscript (removeField "total_iterations" s.toPyVal) "current_iteration" =
      .ok (.int s.current_iteration) := rfl

theorem bsl_rm_pp (clock : String) (s : Snapshot) :
    buildStatusLine clock (removeField "progress_percentage" s.toPyVal)
        (.int s.current_iteration) = .error (.keyError "progress_percentage") := by
  rcases s with ⟨c, t, pr, el, re, sp, st, lu, psnr, ssim, cef, ep⟩
  cases psnr <;> cases ssim <;> cases cef <;> cases ep <;> rfl

theorem bsl_rm_el (clock : String) (s : Snapshot) :
    buildStatusLine clock (removeField "elapsed_time_seconds" s.toPyVal)
        (.int s.current_iteration) = .error (.keyError "elapsed_time_seconds") := by
  rcases s with ⟨c, t, pr, el, re, sp, st, lu, psnr, ssim, cef, ep⟩
  cases psnr <;> cases ssim <;> cases cef <;> cases ep <;> rfl

theorem bsl_rm_re (clock : String) (s : Snapshot) :
    buildStatusLine clock (removeField "estimated_remaining_seconds" s.toPyVal)
        (.int s.current_iteration) = .error (.keyError "estimated_remaining_seconds") := by
  rcases s with ⟨c, t, pr, el, re, sp, st, lu, psnr, ssim, cef, ep⟩
  cases psnr <;> cases ssim <;> cases cef <;> cases ep <;> rfl

theorem bsl_rm_sp (clock : String) (s : Snapshot) :
    buildStatusLine clock (removeField "current_splat_count" s.toPyVal)
        (.int s.current_iteration) = .error (.keyError "current_splat_count") := by
  rcases s with ⟨c, t, pr, el, re, sp, st, lu, psnr, ssim, cef, ep⟩
  cases psnr <;> cases ssim <;> cases cef <;> cases ep <;> rfl

theorem bsl_rm_st (clock : String) (s : Snapshot) :
    buildStatusLine clock (removeField "status" s.toPyVal)
        (.int s.current_iteration) = .error (.keyError "status") := by
  rcases s with ⟨c, t, pr, el, re, sp, st, lu, psnr, ssim, cef, ep⟩
  cases psnr <;> cases ssim <;> cases cef <;> cases ep <;> rfl

theorem bsl_rm_ti (clock : String) (s : Snapshot) :
    buildStatusLine clock (removeField "total_iterations" s.toPyVal)
        (.int s.current_iteration) = .error (.keyError "total_iterations") := by
  rcases s with ⟨c, t, pr, el, re, sp, st, lu, psnr, ssim, cef, ep⟩
  cases psnr <;> cases ssim <;> cases cef <;> cases ep <;> rfl

/-- The first list is a prefix of the second (character lists). -/
def charsPfx : List Char → List Char → Bool
  | [], _ => true
  | _ :: _, [] => false
  | a :: as, b :: bs => a == b && charsPfx as bs

/-- The pattern occurs somewhere in the text (character lists). -/
def subAt : List Char → List Char → Bool
  | pat, [] => charsPfx pat []
  | pat, c :: rest => charsPfx pat (c :: rest) || subAt pat rest

/-- The second string occurs as a substring of the first. -/
def hasSub (s pat : String) : Bool := subAt pat.toList s.toList

theorem loopStep_of_nonneg (clock : String) (interval : ℚ) (art : Artifact) (last : PyVal)
    (h : 0 ≤ interval) : loopStep clock interval art last = pollOnce clock art last := by
  have hs : pySleep interval = .ok () := by
    unfold pySleep
    rw [if_neg (not_lt.mpr h)]
  unfold loopStep
  rw [hs]
  rcases pollOnce clock art last with ⟨lines, lastv, term, unc⟩
  cases term <;> cases unc <;> rfl

theorem loopStep_neg_interval (clock : String) (interval : ℚ) (last : PyVal)
    (h : interval < 0) :
    loopStep clock interval .absent last =
      ⟨["Status file not found, waiting for training to start..."], last, false,
        some .valueError⟩ := by
  have hs : pySleep interval = .error .valueError := by
    unfold pySleep
    rw [if_pos h]
  unfold loopStep
  rw [hs]
  rfl

theorem afterRender_head_last (clock : String) (s : Snapshot) :
    (afterRender clock s).lines.head? = some (renderLine clock s) ∧
    (afterRender clock s).last = .int s.current_iteration := by
  unfold afterRender pollAfterLine
  split_ifs with h1 h2
  · cases hg : pyDictGet s.toPyVal "current_export_file" with
    | error e => cases e <;> exact ⟨rfl, rfl⟩
    | ok e =>
      dsimp only
      by_cases ht : truthy e = true
      · rw [if_pos ht]
        cases hp : pySubscript s.toPyVal "export_path" with
        | error er => cases er <;> exact ⟨rfl, rfl⟩
        | ok ep =>
          cases hc : pySubscript s.toPyVal "current_export_file" with
          | error er => cases er <;> exact ⟨rfl, rfl⟩
          | ok ef => exact ⟨rfl, rfl⟩
      · rw [if_neg ht]
        exact ⟨rfl, rfl⟩
  · exact ⟨rfl, rfl⟩
  · exact ⟨rfl, rfl⟩

/-- The always-present part of the status line, as a function of the
snapshot fields. -/
def lineBase (clock : String) (s : Snapshot) : String :=
  "[" ++ clock ++ "] " ++
    ("Iter " ++ toString s.current_iteration ++ "/" ++ toString s.total_iterations ++
     " (" ++ formatFixed 1 s.progress_percentage ++ "%) | " ++
     "Elapsed: " ++ format_duration s.elapsed_time_seconds ++ " | " ++
     "Remaining: " ++ format_duration s.estimated_remaining_seconds ++ " | " ++
     "Splats: " ++ commaInt s.current_splat_count ++ " | " ++
     "Status: " ++ s.status)

/-- Append the export segment to a candidate status line exactly when
current_export_file is present and truthy. -/
def withExportSeg (s : Snapshot) (L : String) : String :=
  match s.current_export_file with
  | .val f => if truthy (.str f) then L ++ (" | Last export: " ++ f) else L
  | _ => L

theorem bsl_psnr_ssim_absent (clock : String) (c t : ℤ) (pr el re : ℚ) (sp : ℤ)
    (st lu : String) (p : ℚ) (cef ep : OptF String) :
    buildStatusLine clock
        (Snapshot.toPyVal ⟨c, t, pr, el, re, sp, st, lu, .val p, .absent, cef, ep⟩)
        (.int c) = .error (.keyError "last_eval_ssim") := by
  cases cef <;> cases ep <;> rfl

theorem bsl_psnr_ssim_null (clock : String) (c t : ℤ) (pr el re : ℚ) (sp : ℤ)
    (st lu : String) (p : ℚ) (cef ep : OptF String) :
    buildStatusLine clock
        (Snapshot.toPyVal ⟨c, t, pr, el, re, sp, st, lu, .val p, .null, cef, ep⟩)
        (.int c) = .error .typeError := by
  cases cef <;> cases ep <;> rfl

/-- Claim C1 (corrected).  Terminal statuses end the loop only on a poll
whose current_iteration differs from last_seen_iteration: on such a poll
a completed snapshot yields a completion notice and the break runs (with
or without the final-output line), an error snapshot yields a failure
notice and the break runs; but on a poll whose current_iteration equals
last_seen_iteration the monitor emits nothing and does not terminate,
whatever the status value is. -/
theorem claim_C1 (clock : String) (s : Snapshot) (l : ℤ) :
    (s.current_iteration ≠ l → MetricsOK s → s.status = "completed" →
      truthy (strOptVal s.current_export_file) = false →
      pollOnce clock (.parsed s.toPyVal) (.int l) =
        ⟨[renderLine clock s, "\n✅ Training completed!"], .int s.current_iteration, true,
          Option.none⟩) ∧
    (∀ f p : String, s.current_iteration ≠ l → MetricsOK s → s.status = "completed" →
      s.current_export_file = .val f → f ≠ "" → s.export_path = .val p →
      pollOnce clock (.parsed s.toPyVal) (.int l) =
        ⟨[renderLine clock s, "\n✅ Training completed!", "Final output: " ++ p ++ "/" ++ f],
          .int s.current_iteration, true, Option.none⟩) ∧
    (s.current_iteration ≠ l → MetricsOK s → s.status = "error" →
      pollOnce clock (.parsed s.toPyVal) (.int l) =
        ⟨[renderLine clock s, "\n❌ Training failed!"], .int s.current_iteration, true,
          Option.none⟩) ∧
    (s.current_iteration = l →
      pollOnce clock (.parsed s.toPyVal) (.int l) = ⟨[], .int l, false, Option.none⟩) := by
  refine ⟨?_, ?_, ?_, ?_⟩
  · intro hne hm hst hx
    rw [pollOnce_changed clock s l hne hm, afterRender_completed_no_export clock s hst hx]
  · intro f p hne hm hst hcef hf hep
    rw [pollOnce_changed clock s l hne hm,
      afterRender_completed_export clock s f p hst hcef hf hep]
  · intro hne hm hst
    rw [pollOnce_changed clock s l hne hm, afterRender_error clock s hst]
  · intro he
    exact pollOnce_same clock s l he

/-- A completed snapshot observed while current_iteration equals the
stored last_seen_iteration. -/
def c1snap : Snapshot :=
  ⟨5, 1000, 50.0, 120.0, 30.0, 2000, "completed", "2025-06-28T10:00:00Z",
   .absent, .absent, .absent, .absent⟩

/-- Claim C1 counterexample.  A parsed snapshot with status completed
whose current_iteration equals last_seen_iteration: the poll emits no
completion notice and the loop does not terminate, contradicting the
claim that termination happens regardless of the iteration comparison. -/
theorem claim_C1_counterexample :
    pollOnce "10:00:00" (.parsed c1snap.toPyVal) (.int 5) =
      ⟨[], .int 5, false, Option.none⟩ ∧
    (pollOnce "10:00:00" (.parsed c1snap.toPyVal) (.int 5)).terminated = false ∧
    (pollOnce "10:00:00" (.parsed c1snap.toPyVal) (.int 5)).lines = [] :=
  ⟨rfl, rfl, rfl⟩

/-- A snapshot reporting status error, for the C1 witness. -/
def w1snap : Snapshot :=
  ⟨4, 50, 8.0, 10.0, 20.0, 100, "error", "2025-06-28T11:00:00Z",
   .absent, .absent, .absent, .absent⟩

/-- Claim C1 witness: the amended claim evaluated on a concrete error
snapshot at a changed iteration. -/
theorem claim_C1_witness :
    pollOnce "11:00:00" (.parsed w1snap.toPyVal) (.int 1) =
      ⟨[renderLine "11:00:00" w1snap, "\n❌ Training failed!"], .int 4, true, Option.none⟩ :=
  (claim_C1 "11:00:00" w1snap 1).2.2.1 (by decide) (by trivial) rfl

/-- A parsed snapshot whose progress_percentage is null while every
other required field is well typed. -/
def c2nullProgress : PyVal :=
  .dict [("current_iteration", .int 21), ("total_iterations", .int 100),
         ("progress_percentage", PyVal.null), ("elapsed_time_seconds", .float 5),
         ("estimated_remaining_seconds", .float 6), ("current_splat_count", .int 9),
         ("status", .str "training"), ("last_updated", .str "2025-06-28T12:00:00Z")]

/-- A parsed snapshot whose current_iteration is null while every other
required field is well typed. -/
def c2nullCi : PyVal :=
  .dict [("current_iteration", PyVal.null), ("total_iterations", .int 100),
         ("progress_percentage", .float 10), ("elapsed_time_seconds", .float 5),
         ("estimated_remaining_seconds", .float 6), ("current_splat_count", .int 9),
         ("status", .str "training"), ("last_updated", .str "2025-06-28T12:00:00Z")]

/-- Claim C2 (corrected).  The poll loop absorbs an absent file, a file
that vanished between the existence check and the open, malformed JSON,
and an object snapshot missing the status key, each with a one-line
notice (or silence when the iteration is unchanged) and no uncaught
exception; but a well-formed JSON document whose top level is not an
object makes the subscript raise a TypeError that no except clause
catches, escaping the poll loop, and so does a null value in a field
the renderer formats numerically, such as progress_percentage, which
aborts the iteration with no line at all.  A null current_iteration, by
contrast, raises nothing: the comparison and the interpolation both
accept None, and one ordinary status line is emitted. -/
theorem claim_C2 (clock : String) (last : PyVal) (s : Snapshot) (l : ℤ) :
    (pollOnce clock .absent last =
      ⟨["Status file not found, waiting for training to start..."], last, false,
        Option.none⟩) ∧
    (pollOnce clock .vanished last =
      ⟨["Status file disappeared, waiting..."], last, false, Option.none⟩) ∧
    (pollOnce clock .malformed last =
      ⟨["Status file corrupted, retrying..."], last, false, Option.none⟩) ∧
    ((pollOnce clock (.parsed (removeField "status" s.toPyVal)) (.int l)).uncaught =
        Option.none ∧
     (pollOnce clock (.parsed (removeField "status" s.toPyVal)) (.int l)).terminated =
        false) ∧
    (pollOnce clock (.parsed PyVal.null) last).uncaught = some .typeError ∧
    (pollOnce clock (.parsed c2nullProgress) (.int (-1)) =
      ⟨[], .int 21, false, some .typeError⟩) ∧
    ((pollOnce clock (.parsed c2nullCi) (.int (-1))).uncaught = Option.none ∧
     (pollOnce clock (.parsed c2nullCi) (.int (-1))).lines.length = 1 ∧
     (pollOnce clock (.parsed c2nullCi) (.int (-1))).last = PyVal.null) := by
  refine ⟨rfl, rfl, rfl, ?_, rfl, rfl, ⟨rfl, rfl, rfl⟩⟩
  by_cases h : s.current_iteration = l
  · rw [pollOnce_parsed_same clock _ l (h ▸ sub_ci_rm_st s)]
    exact ⟨rfl, rfl⟩
  · rw [pollOnce_missing_general clock _ s.current_iteration l "status"
      (sub_ci_rm_st s) (bsl_rm_st clock s) h]
    exact ⟨rfl, rfl⟩

/-- Claim C2 counterexample.  The artifact holding the well-formed JSON
document null: the subscript raises a TypeError that escapes the poll
loop uncaught and no notice line is printed, contradicting the claim
that every well-formed JSON shape is absorbed with a one-line notice. -/
theorem claim_C2_counterexample :
    pollOnce "12:00:00" (.parsed PyVal.null) (.int (-1)) =
      ⟨[], .int (-1), false, some .typeError⟩ := rfl

/-- Claim C3 (corrected).  For a parsed object snapshot missing one
required key: when the missing key is current_iteration itself the
notice names it and last_seen_iteration is untouched; when a different
required key is missing and current_iteration differs from
last_seen_iteration, the notice names the key but last_seen_iteration
has already been updated (line 64 runs before the failing read); when a
different required key is missing and current_iteration equals
last_seen_iteration, no line at all is emitted. -/
theorem claim_C3 (clock : String) (s : Snapshot) (l : ℤ) (k : String)
    (hk : k ∈ requiredKeys) :
    (k = "current_iteration" →
      pollOnce clock (.parsed (removeField k s.toPyVal)) (.int l) =
        ⟨[missingNotice k], .int l, false, Option.none⟩) ∧
    (k ≠ "current_iteration" → s.current_iteration ≠ l →
      pollOnce clock (.parsed (removeField k s.toPyVal)) (.int l) =
        ⟨[missingNotice k], .int s.current_iteration, false, Option.none⟩) ∧
    (k ≠ "current_iteration" → s.current_iteration = l →
      pollOnce clock (.parsed (removeField k s.toPyVal)) (.int l) =
        ⟨[], .int l, false, Option.none⟩) := by
  refine ⟨?_, ?_, ?_⟩
  · intro hkc
    subst hkc
    exact pollOnce_missing_ci clock s l
  · intro hkc hne
    fin_cases hk
    · exact absurd rfl hkc
    · exact pollOnce_missing_general clock _ s.current_iteration l _
        (sub_ci_rm_pp s) (bsl_rm_pp clock s) hne
    · exact pollOnce_missing_general clock _ s.current_iteration l _
        (sub_ci_rm_el s) (bsl_rm_el clock s) hne
    · exact pollOnce_missing_general clock _ s.current_iteration l _
        (sub_ci_rm_re s) (bsl_rm_re clock s) hne
    · exact pollOnce_missing_general clock _ s.current_iteration l _
        (sub_ci_rm_sp s) (bsl_rm_sp clock s) hne
    · exact pollOnce_missing_general clock _ s.current_iteration l _
        (sub_ci_rm_st s) (bsl_rm_st clock s) hne
    · exact pollOnce_missing_general clock _ s.current_iteration l _
        (sub_ci_rm_ti s) (bsl_rm_ti clock s) hne
  · intro hkc he
    fin_cases hk
    · exact absurd rfl hkc
    · exact pollOnce_parsed_same clock _ l (he ▸ sub_ci_rm_pp s)
    · exact pollOnce_parsed_same clock _ l (he ▸ sub_ci_rm_el s)
    · exact pollOnce_parsed_same clock _ l (he ▸ sub_ci_rm_re s)
    · exact pollOnce_parsed_same clock _ l (he ▸ sub_ci_rm_sp s)
    · exact pollOnce_parsed_same clock _ l (he ▸ sub_ci_rm_st s)
    · exact pollOnce_parsed_same clock _ l (he ▸ sub_ci_rm_ti s)

/-- A training snapshot used for the C3 counterexample. -/
def c3snap : Snapshot :=
  ⟨100, 1000, 10.0, 60.5, 544.5, 5000, "training", "2025-06-28T13:00:00Z",
   .absent, .absent, .absent, .absent⟩

/-- Claim C3 counterexample.  The snapshot missing progress_percentage
with last_seen_iteration still at the sentinel: the notice names the
missing key, but last_seen_iteration is updated from -1 to 100 by that
same poll, contradicting the claim that it is left unchanged. -/
theorem claim_C3_counterexample :
    pollOnce "13:00:00" (.parsed (removeField "progress_percentage" c3snap.toPyVal))
        (.int (-1)) =
      ⟨[missingNotice "progress_percentage"], .int 100, false, Option.none⟩ ∧
    (PyVal.int 100 = PyVal.int (-1) → False) := by
  refine ⟨rfl, ?_⟩
  intro h
  injection h with h2
  exact absurd h2 (by decide)

/-- A training snapshot used for the C3 witness. -/
def w3snap : Snapshot :=
  ⟨9, 20, 45.0, 5.0, 6.0, 77, "training", "2025-06-28T14:00:00Z",
   .absent, .absent, .absent, .absent⟩

/-- Claim C3 witness: the amended claim evaluated with the status key
removed and a changed iteration. -/
theorem claim_C3_witness :
    pollOnce "14:00:00" (.parsed (removeField "status" w3snap.toPyVal)) (.int 7) =
      ⟨[missingNotice "status"], .int 9, false, Option.none⟩ :=
  (claim_C3 "14:00:00" w3snap 7 "status" (by decide)).2.1 (by decide) (by decide)

/-- Claim C4 (corrected).  On a valid snapshot whose current_iteration
equals last_seen_iteration the poll emits nothing; when it differs,
exactly one status line is emitted and last_seen_iteration is updated —
provided the status is not terminal, since a terminal status emits its
termination notices in addition to the single status line. -/
theorem claim_C4 (clock : String) (s : Snapshot) (l : ℤ) :
    (s.current_iteration = l →
      pollOnce clock (.parsed s.toPyVal) (.int l) = ⟨[], .int l, false, Option.none⟩) ∧
    (s.current_iteration ≠ l → MetricsOK s → s.status ≠ "completed" → s.status ≠ "error" →
      pollOnce clock (.parsed s.toPyVal) (.int l) =
        ⟨[renderLine clock s], .int s.current_iteration, false, Option.none⟩) := by
  refine ⟨fun h => pollOnce_same clock s l h, fun hne hm h1 h2 => ?_⟩
  rw [pollOnce_changed clock s l hne hm, afterRender_nonterminal clock s h1 h2]

/-- A completed snapshot used for the C4 counterexample. -/
def c4snap : Snapshot :=
  ⟨3, 10, 30.0, 5.0, 12.0, 42, "completed", "2025-06-28T15:00:00Z",
   .absent, .absent, .absent, .absent⟩

/-- Claim C4 counterexample.  A valid snapshot with changed iteration and
status completed emits two lines (the status line and the completion
notice), not exactly one. -/
theorem claim_C4_counterexample :
    (pollOnce "15:00:00" (.parsed c4snap.toPyVal) (.int (-1))).lines =
      [renderLine "15:00:00" c4snap, "\n✅ Training completed!"] ∧
    (pollOnce "15:00:00" (.parsed c4snap.toPyVal) (.int (-1))).lines.length = 2 :=
  ⟨rfl, rfl⟩

/-- A training snapshot used for the C4 witness. -/
def w4snap : Snapshot :=
  ⟨6, 40, 15.0, 3.0, 17.0, 64, "training", "2025-06-28T16:00:00Z",
   .absent, .absent, .absent, .absent⟩

/-- Claim C4 witness: the amended claim evaluated on a concrete
non-terminal snapshot with a changed iteration. -/
theorem claim_C4_witness :
    pollOnce "16:30:00" (.parsed w4snap.toPyVal) (.int 2) =
      ⟨[renderLine "16:30:00" w4snap], .int 6, false, Option.none⟩ :=
  (claim_C4 "16:30:00" w4snap 2).2 (by decide) (by trivial) (by decide) (by decide)

/-- Claim C5 (confirmed).  format_duration is a pure total function
satisfying the three-branch specification, with the three concrete
values from the spec. -/
theorem claim_C5 :
    (∀ v : ℚ, 0 ≤ v →
      (v < 60 → format_duration v = formatFixed 1 v ++ "s") ∧
      (60 ≤ v → v < 3600 → format_duration v = formatFixed 1 (v / 60) ++ "m") ∧
      (3600 ≤ v → format_duration v = formatFixed 1 (v / 3600) ++ "h")) ∧
    format_duration 59.9 = "59.9s" ∧
    format_duration 60.0 = "1.0m" ∧
    format_duration 3600.0 = "1.0h" := by
  refine ⟨fun v hv => ⟨?_, ?_, ?_⟩, by decide, by decide, by decide⟩
  · intro h
    unfold format_duration
    rw [if_pos h]
  · intro h1 h2
    unfold format_duration
    rw [if_neg (not_lt.mpr h1), if_pos h2]
  · intro h
    unfold format_duration
    rw [if_neg (not_lt.mpr (by linarith)), if_neg (not_lt.mpr h)]

/-- Claim C5 witness: the branch specification evaluated at 30 seconds. -/
theorem claim_C5_witness : format_duration 30 = formatFixed 1 30 ++ "s" :=
  (claim_C5.1 30 (by norm_num)).1 (by norm_num)

/-- Claim C6 (corrected).  The metrics decision tests only
last_eval_psnr: when psnr is absent or null the segment is omitted and
rendering succeeds (whatever last_eval_ssim holds); when both metrics
are numeric the segment with PSNR to two decimals and SSIM to three is
appended; but when psnr is numeric and ssim is missing, the render
raises a KeyError and no status line is emitted at all, and when psnr
is numeric and ssim is null the format raises an uncaught TypeError, so
the claim that rendering still succeeds whenever either metric is
absent or null fails. -/
theorem claim_C6 (clock : String) (s : Snapshot) (l : ℤ)
    (hne : s.current_iteration ≠ l) (h1 : s.status ≠ "completed")
    (h2 : s.status ≠ "error") :
    (∀ p q : ℚ, s.last_eval_psnr = .val p → s.last_eval_ssim = .val q →
      pollOnce clock (.parsed s.toPyVal) (.int l) =
        ⟨[withExportSeg s (lineBase clock s ++
            (" | PSNR: " ++ formatFixed 2 p ++ " | SSIM: " ++ formatFixed 3 q))],
          .int s.current_iteration, false, Option.none⟩) ∧
    (s.last_eval_psnr = .absent ∨ s.last_eval_psnr = .null →
      pollOnce clock (.parsed s.toPyVal) (.int l) =
        ⟨[withExportSeg s (lineBase clock s)], .int s.current_iteration, false,
          Option.none⟩) ∧
    (∀ p : ℚ, s.last_eval_psnr = .val p → s.last_eval_ssim = .absent →
      pollOnce clock (.parsed s.toPyVal) (.int l) =
        ⟨[missingNotice "last_eval_ssim"], .int s.current_iteration, false,
          Option.none⟩) ∧
    (∀ p : ℚ, s.last_eval_psnr = .val p → s.last_eval_ssim = .null →
      (pollOnce clock (.parsed s.toPyVal) (.int l)).uncaught = some .typeError) := by
  refine ⟨?_, ?_, ?_, ?_⟩
  · intro p q hp hq
    have hm : MetricsOK s := by
      unfold MetricsOK
      rw [hp, hq]
      trivial
    rw [pollOnce_changed clock s l hne hm, afterRender_nonterminal clock s h1 h2]
    have hr : renderLine clock s =
        withExportSeg s (lineBase clock s ++
          (" | PSNR: " ++ formatFixed 2 p ++ " | SSIM: " ++ formatFixed 3 q)) := by
      unfold renderLine withExportSeg lineBase
      rw [hp, hq]
    rw [hr]
  · intro hd
    have hm : MetricsOK s := by
      unfold MetricsOK
      rcases hd with h | h <;> rw [h] <;> trivial
    rw [pollOnce_changed clock s l hne hm, afterRender_nonterminal clock s h1 h2]
    have hr : renderLine clock s = withExportSeg s (lineBase clock s) := by
      unfold renderLine withExportSeg lineBase
      rcases hd with h | h <;> rw [h]
    rw [hr]
  · intro p hp hs3
    rcases s with ⟨c, t, pr, el, re, sp, st, lu, psnr, ssim, cef, ep⟩
    have hp2 : psnr = OptF.val p := hp
    have hs2 : ssim = OptF.absent := hs3
    subst hp2
    subst hs2
    exact pollOnce_missing_general clock _ c l "last_eval_ssim" rfl
      (bsl_psnr_ssim_absent clock c t pr el re sp st lu p cef ep) hne
  · intro p hp hs4
    rcases s with ⟨c, t, pr, el, re, sp, st, lu, psnr, ssim, cef, ep⟩
    have hp2 : psnr = OptF.val p := hp
    have hs2 : ssim = OptF.null := hs4
    subst hp2
    subst hs2
    have hb := bsl_psnr_ssim_null clock c t pr el re sp st lu p cef ep
    show (pollParsed clock
      (Snapshot.toPyVal ⟨c, t, pr, el, re, sp, st, lu, OptF.val p, OptF.null, cef, ep⟩)
      (.int l)).uncaught = _
    rw [pollParsed_changed clock
      (Snapshot.toPyVal ⟨c, t, pr, el, re, sp, st, lu, OptF.val p, OptF.null, cef, ep⟩)
      c l rfl hne, hb]
    rfl

/-- A snapshot with a numeric last_eval_psnr but no last_eval_ssim key,
for the C6 counterexample. -/
def c6snap : Snapshot :=
  ⟨11, 100, 11.0, 10.0, 20.0, 123, "training", "2025-06-28T16:00:00Z",
   .val 30.0, .absent, .absent, .absent⟩

/-- Claim C6 counterexample.  last_eval_ssim is absent while
last_eval_psnr is present and non-null: the poll prints only a
missing-key notice and no status line, so rendering does not succeed
without the metrics segment as the claim requires. -/
theorem claim_C6_counterexample :
    pollOnce "16:00:00" (.parsed c6snap.toPyVal) (.int (-1)) =
      ⟨[missingNotice "last_eval_ssim"], .int 11, false, Option.none⟩ := rfl

/-- A snapshot carrying both evaluation metrics, for the C6 witness. -/
def w6snap : Snapshot :=
  ⟨12, 100, 12.0, 10.0, 20.0, 150, "training", "2025-06-28T17:00:00Z",
   .val 25.5, .val 0.875, .absent, .absent⟩

/-- Claim C6 witness: the amended claim evaluated on a snapshot with
both metrics present. -/
theorem claim_C6_witness :
    pollOnce "17:00:00" (.parsed w6snap.toPyVal) (.int 3) =
      ⟨[withExportSeg w6snap (lineBase "17:00:00" w6snap ++
          (" | PSNR: " ++ formatFixed 2 25.5 ++ " | SSIM: " ++ formatFixed 3 0.875))],
        .int 12, false, Option.none⟩ :=
  (claim_C6 "17:00:00" w6snap 3 (by decide) (by decide) (by decide)).1 25.5 0.875 rfl rfl

/-- The completed snapshot of the spec scenario: current_export_file
final.ply, export_path ./out. -/
def c7snap : Snapshot :=
  ⟨100, 1000, 10.0, 60.5, 544.5, 5000, "completed", "2025-06-28T09:34:56Z",
   .absent, .absent, .val "final.ply", .val "./out"⟩

/-- Claim C7 (corrected).  On a changed poll of a completed snapshot:
with a non-empty current_export_file and a present export_path the
completion block includes the Final output line naming path/file and
the loop terminates; with a falsy current_export_file the completion
notice is emitted without a path and the loop terminates; but with a
non-empty current_export_file and a missing export_path the completion
notice is followed by a KeyError notice and the break never runs, so
the loop does not terminate.  The concrete spec scenario behaves as
stated, referencing ./out/final.ply. -/
theorem claim_C7 (clock : String) (s : Snapshot) (l : ℤ)
    (hne : s.current_iteration ≠ l) (hm : MetricsOK s) (hst : s.status = "completed") :
    (∀ f p : String, s.current_export_file = .val f → f ≠ "" → s.export_path = .val p →
      pollOnce clock (.parsed s.toPyVal) (.int l) =
        ⟨[renderLine clock s, "\n✅ Training completed!",
          "Final output: " ++ p ++ "/" ++ f],
          .int s.current_iteration, true, Option.none⟩) ∧
    (truthy (strOptVal s.current_export_file) = false →
      pollOnce clock (.parsed s.toPyVal) (.int l) =
        ⟨[renderLine clock s, "\n✅ Training completed!"], .int s.current_iteration, true,
          Option.none⟩) ∧
    (∀ f : String, s.current_export_file = .val f → f ≠ "" → s.export_path = .absent →
      pollOnce clock (.parsed s.toPyVal) (.int l) =
        ⟨[renderLine clock s, "\n✅ Training completed!", missingNotice "export_path"],
          .int s.current_iteration, false, Option.none⟩) ∧
    (pollOnce clock (.parsed c7snap.toPyVal) (.int (-1)) =
      ⟨[renderLine clock c7snap, "\n✅ Training completed!", "Final output: ./out/final.ply"],
        .int 100, true, Option.none⟩ ∧
     hasSub "Final output: ./out/final.ply" "./out/final.ply" = true) := by
  refine ⟨?_, ?_, ?_, rfl, rfl⟩
  · intro f p hcef hf hep
    rw [pollOnce_changed clock s l hne hm,
      afterRender_completed_export clock s f p hst hcef hf hep]
  · intro hx
    rw [pollOnce_changed clock s l hne hm,
      afterRender_completed_no_export clock s hst hx]
  · intro f hcef hf hep
    rw [pollOnce_changed clock s l hne hm,
      afterRender_completed_export_no_path clock s f hst hcef hf hep]

/-- A completed snapshot naming an export file but carrying no
export_path key, for the C7 counterexample. -/
def c7bad : Snapshot :=
  ⟨7, 1000, 0.7, 10.0, 20.0, 50, "completed", "2025-06-28T18:00:00Z",
   .absent, .absent, .val "final.ply", .absent⟩

/-- Claim C7 counterexample.  Status completed with current_export_file
present but export_path missing: the completion notice is printed, then
the KeyError notice, and the loop does not terminate — contradicting
the claim that the loop terminates in all completed cases. -/
theorem claim_C7_counterexample :
    pollOnce "18:00:00" (.parsed c7bad.toPyVal) (.int (-1)) =
      ⟨[renderLine "18:00:00" c7bad, "\n✅ Training completed!", missingNotice "export_path"],
        .int 7, false, Option.none⟩ ∧
    (pollOnce "18:00:00" (.parsed c7bad.toPyVal) (.int (-1))).terminated = false :=
  ⟨rfl, rfl⟩

/-- Claim C7 witness: the amended claim evaluated on the spec scenario
snapshot. -/
theorem claim_C7_witness :
    pollOnce "09:40:00" (.parsed c7snap.toPyVal) (.int (-1)) =
      ⟨[renderLine "09:40:00" c7snap, "\n✅ Training completed!",
        "Final output: " ++ "./out" ++ "/" ++ "final.ply"],
        .int 100, true, Option.none⟩ :=
  (claim_C7 "09:40:00" c7snap (-1) (by decide) (by trivial) rfl).1 "final.ply" "./out"
    rfl (by decide) rfl

/-- The snapshot of the first spec scenario. -/
def c8snap : Snapshot :=
  ⟨100, 1000, 10.0, 60.5, 544.5, 5000, "training", "2025-06-28T09:34:56Z",
   .absent, .absent, .absent, .absent⟩

/-- The clock-independent body of the line the first spec scenario
renders. -/
def c8body : String :=
  "Iter 100/1000 (10.0%) | Elapsed: 1.0m | Remaining: 9.1m | Splats: 5,000 | Status: training"

/-- Claim C8 (confirmed).  Starting from the sentinel -1, the scenario
snapshot emits exactly one line whose body contains the six required
substrings and no metrics or export segment. -/
theorem claim_C8 (clock : String) :
    pollOnce clock (.parsed c8snap.toPyVal) (.int (-1)) =
      ⟨["[" ++ clock ++ "] " ++ c8body], .int 100, false, Option.none⟩ ∧
    hasSub c8body "Iter 100/1000" = true ∧
    hasSub c8body "(10.0%)" = true ∧
    hasSub c8body "Elapsed: 1.0m" = true ∧
    hasSub c8body "Remaining: 9.1m" = true ∧
    hasSub c8body "Splats: 5,000" = true ∧
    hasSub c8body "Status: training" = true ∧
    hasSub c8body "PSNR" = false ∧
    hasSub c8body "SSIM" = false ∧
    hasSub c8body "Last export" = false :=
  ⟨rfl, rfl, rfl, rfl, rfl, rfl, rfl, rfl, rfl, rfl⟩

/-- Claim C8 witness: the scenario evaluated at a concrete clock. -/
theorem claim_C8_witness :
    pollOnce "09:34:56" (.parsed c8snap.toPyVal) (.int (-1)) =
      ⟨["[" ++ "09:34:56" ++ "] " ++ c8body], .int 100, false, Option.none⟩ :=
  (claim_C8 "09:34:56").1

/-- Claim C9 (corrected).  Neither monitor_training_progress nor the
loop validates the poll interval: the monitor always prints its header
and enters the loop with the sentinel.  With interval 0 a full loop
trip behaves exactly like the poll body alone (no failure, busy
polling); with a negative interval the first trip still performs the
poll — emitting its notice — and only then raises ValueError out of
time.sleep, which no except clause catches.  There is no fail-fast
rejection before the loop. -/
theorem claim_C9 (clock path : String) (last : PyVal) (interval : ℚ) :
    (monitorInit path =
      (["Monitoring training progress from: " ++ path,
        "Press Ctrl+C to stop monitoring\n"], .int (-1))) ∧
    (interval = 0 → ∀ art, loopStep clock interval art last = pollOnce clock art last) ∧
    (interval < 0 → loopStep clock interval .absent last =
      ⟨["Status file not found, waiting for training to start..."], last, false,
        some .valueError⟩) := by
  refine ⟨rfl, ?_, ?_⟩
  · intro h art
    subst h
    exact loopStep_of_nonneg clock 0 art last le_rfl
  · intro h
    exact loopStep_neg_interval clock interval last h

/-- Claim C9 counterexample.  With the non-positive interval 0 the
monitor enters the poll loop, emits the waiting notice, and continues
with no failure of any kind — there is no fail-fast treatment of the
invalid interval. -/
theorem claim_C9_counterexample :
    loopStep "19:00:00" 0 .absent (.int (-1)) =
      ⟨["Status file not found, waiting for training to start..."], .int (-1), false,
        Option.none⟩ := rfl

/-- Claim C9 witness: the amended claim evaluated at interval -1, where
the crash comes from the sleep after the poll already ran. -/
theorem claim_C9_witness :
    loopStep "20:00:00" (-1) .absent (.int (-1)) =
      ⟨["Status file not found, waiting for training to start..."], .int (-1), false,
        some .valueError⟩ :=
  (claim_C9 "20:00:00" "training_status.json" (.int (-1)) (-1)).2.2 (by norm_num)

/-- Claim C10 (confirmed).  Change detection is the strict inequality
of line 63: a snapshot whose current_iteration is strictly below
last_seen_iteration still renders a status line (the head of the lines
printed) and last_seen_iteration is updated downward to it; the monitor
never enforces the producer-side monotonicity. -/
theorem claim_C10 (clock : String) (s : Snapshot) (l : ℤ)
    (hlt : s.current_iteration < l) (hm : MetricsOK s) :
    (pollOnce clock (.parsed s.toPyVal) (.int l)).lines.head? =
        some (renderLine clock s) ∧
    (pollOnce clock (.parsed s.toPyVal) (.int l)).last = .int s.current_iteration := by
  rw [pollOnce_changed clock s l (ne_of_lt hlt) hm]
  exact afterRender_head_last clock s

/-- A snapshot whose iteration went backwards, for the C10 witness. -/
def w10snap : Snapshot :=
  ⟨2, 100, 2.0, 1.0, 50.0, 10, "training", "2025-06-28T21:00:00Z",
   .absent, .absent, .absent, .absent⟩

/-- Claim C10 witness: the claim evaluated where current_iteration 2 is
below the stored last_seen_iteration 5. -/
theorem claim_C10_witness :
    (pollOnce "21:00:00" (.parsed w10snap.toPyVal) (.int 5)).lines.head? =
        some (renderLine "21:00:00" w10snap) ∧
    (pollOnce "21:00:00" (.parsed w10snap.toPyVal) (.int 5)).last = .int 2 :=
  claim_C10 "21:00:00" w10snap 5 (by decide) (by trivial)
